import Mathlib

/-!
Shallow embedding of the NEO close-approach query engine
(`models.py`, `extract.py`, `filters.py`).

Python floats appear here only through the comparisons the filter code
performs, so they are modelled as `Option ℚ` where `Option.none` is the
not-a-number sentinel (`float('nan')`): every ordering comparison and
equality involving the sentinel is `false`, exactly the IEEE behaviour the
code relies on.  Fallible Python code (attribute errors, `ValueError`,
`KeyError`) is modelled with `Except Unit`.
-/

set_option autoImplicit false

/-- A Python float as used by this program: `Option.none` is `float('nan')`. -/
abbrev NFloat := Option ℚ

/-- Python `>=` on floats: any comparison with NaN is `False`. -/
def nfGe : NFloat → NFloat → Bool
  | some a, some b => decide (b ≤ a)
  | _, _ => false

/-- Python `<=` on floats: any comparison with NaN is `False`. -/
def nfLe : NFloat → NFloat → Bool
  | some a, some b => decide (a ≤ b)
  | _, _ => false

/-- Python `==` on floats: NaN is not equal to anything, itself included. -/
def nfEq : NFloat → NFloat → Bool
  | some a, some b => decide (a = b)
  | _, _ => false

/-- A `datetime.datetime` as the filter code observes it: a totally ordered
calendar date (modelled as a day ordinal) plus a time-of-day component that
`ApproachFilter.get` discards via `.date()`. -/
structure PyDatetime where
  date : Int
  minuteOfDay : Nat
deriving DecidableEq

/-- The universe of Python values that can reach `ApproachFilter`: the
criterion reference values handed to `create_filters` and the attribute
values fetched from a `CloseApproach`. -/
inductive PyVal where
  | none
  | pydate (d : Int)
  | pyfloat (x : NFloat)
  | pyint (n : Int)
  | pybool (b : Bool)
deriving DecidableEq

/-- The three type specifications used in `create_filters`' tuple table:
`datetime.date`, `(float, int)` and `bool`. -/
inductive PyType where
  | date
  | floatOrInt
  | bool
deriving DecidableEq

/-- Python `isinstance` restricted to the values and type specifications this
program uses.  As in CPython, `bool` is a subclass of `int`, so a `bool`
value is an instance of `(float, int)`; `None` is an instance of none of the
three specifications. -/
def isinst : PyVal → PyType → Bool
  | PyVal.pydate _, PyType.date => true
  | PyVal.pyfloat _, PyType.floatOrInt => true
  | PyVal.pyint _, PyType.floatOrInt => true
  | PyVal.pybool _, PyType.floatOrInt => true
  | PyVal.pybool _, PyType.bool => true
  | _, _ => false

/-- The numeric view of a value, per Python's numeric tower (`bool ⊆ int ⊆
float`): numbers of every numeric type compare with each other. -/
def PyVal.asNum : PyVal → Option NFloat
  | PyVal.pyfloat x => some x
  | PyVal.pyint n => some (some (n : ℚ))
  | PyVal.pybool b => some (some (if b then 1 else 0))
  | _ => Option.none

/-- Python `is` (`operator.is_`) on the values reaching this code.  `None`
and the two `bool`s are singletons, so identity coincides with equality for
them; identity of other objects is modelled as `false` (the program only
ever applies `is` to `bool` attribute values against `bool` reference
values, by the `isinstance` guard in `ApproachFilter.__init__`). -/
def pyIs : PyVal → PyVal → Bool
  | PyVal.none, PyVal.none => true
  | PyVal.pybool a, PyVal.pybool b => a == b
  | _, _ => false

/-- The four comparators `create_filters` draws from the `operator` module. -/
inductive Op where
  | eq
  | ge
  | le
  | is_
deriving DecidableEq

/-- Applying a comparator as Python does, first argument the fetched
attribute value, second the reference value (`f[2](self.get(...), f[0])`).
`==` never raises (mismatched types are unequal); `>=`/`<=` work within the
numeric tower and on dates but raise `TypeError` across kinds; `is` never
raises. -/
def applyOp : Op → PyVal → PyVal → Except Unit Bool
  | Op.is_, a, b => Except.ok (pyIs a b)
  | Op.eq, a, b =>
    match a.asNum, b.asNum with
    | some x, some y => Except.ok (nfEq x y)
    | _, _ =>
      match a, b with
      | PyVal.pydate d, PyVal.pydate e => Except.ok (decide (d = e))
      | _, _ => Except.ok (decide (a = b))
  | Op.ge, a, b =>
    match a.asNum, b.asNum with
    | some x, some y => Except.ok (nfGe x y)
    | _, _ =>
      match a, b with
      | PyVal.pydate d, PyVal.pydate e => Except.ok (decide (e ≤ d))
      | _, _ => Except.error ()
  | Op.le, a, b =>
    match a.asNum, b.asNum with
    | some x, some y => Except.ok (nfLe x y)
    | _, _ =>
      match a, b with
      | PyVal.pydate d, PyVal.pydate e => Except.ok (decide (d ≤ e))
      | _, _ => Except.error ()

/-- The module-level default list object of `NearEarthObject.__init__`'s
`approaches: list = []` parameter.  CPython evaluates the default expression
once, when the function is defined, so every construction that omits the
argument receives a reference to this same heap cell. -/
def defaultApproachesRef : Nat := 0

/-- The list heap at interpreter start: only the shared default list (cell
`0`, empty) has been allocated. -/
def initHeap : List (List Nat) := [[]]

/-- Read a list object through its reference. -/
def heapGet (h : List (List Nat)) (r : Nat) : List Nat := h.getD r []

/-- Python `lst.append(x)` through a reference: mutates the cell in place,
visible through every alias of the same reference. -/
def heapAppend (h : List (List Nat)) (r x : Nat) : List (List Nat) :=
  h.set r (heapGet h r ++ [x])

/-- `NearEarthObject` (`models.py`).  `name` is `Optional[str]`; `diameter`
is a float defaulting to NaN; `approaches` holds a reference into the list
heap. -/
structure NearEarthObject where
  designation : String
  name : Option String
  diameter : NFloat
  hazardous : Bool
  approaches : Nat
deriving DecidableEq

/-- `NearEarthObject.__init__`: stores each argument unchanged (no
coercion or normalization is performed in the source).  The Python defaults
are `name=None`, `hazardous=False`, `diameter=float('nan')` and
`approaches=[]`; here an omitted argument is passed as `Option.none`, and
omitting `approaches` yields the shared `defaultApproachesRef` cell, exactly
as CPython's one-time default-expression evaluation does. -/
def NearEarthObject.init (designation : String) (name : Option String)
    (hazardous : Bool) (diameter : NFloat) (approaches : Option Nat) :
    NearEarthObject :=
  { designation := designation
    name := name
    diameter := diameter
    hazardous := hazardous
    approaches := approaches.getD defaultApproachesRef }

/-- `CloseApproach` (`models.py`) as the query engine observes it: the
constructor's `cd_to_datetime` parsing (from the out-of-scope `helpers`
module) has already produced the `time` value, and `neo` is the back
reference that `CloseApproach.__init__` initializes to `None` and that only
the database linkage step ever replaces. -/
structure CloseApproach where
  designation : String
  time : PyDatetime
  distance : NFloat
  velocity : NFloat
  neo : Option NearEarthObject
deriving DecidableEq

/-- The five dotted attribute paths `create_filters` uses. -/
inductive Attr where
  | time
  | distance
  | velocity
  | neoDiameter
  | neoHazardous
deriving DecidableEq

/-- One entry of the filter table handed to `ApproachFilter`: the tuple
`(input_arg_value, class_attribute_name, operator, valid_type)`. -/
structure FilterTuple where
  value : PyVal
  attr : Attr
  op : Op
  ty : PyType
deriving DecidableEq

/-- `ApproachFilter` (`filters.py`): carries the list of tuples surviving
the `isinstance` guard of `__init__`. -/
structure ApproachFilter where
  filters : List FilterTuple
deriving DecidableEq

/-- `ApproachFilter.__init__`: keeps exactly the tuples whose reference
value is an instance of the tuple's declared type
(`[f for f in filters if isinstance(f[0], f[3])]`). -/
def ApproachFilter.init (filters : List FilterTuple) : ApproachFilter :=
  ⟨filters.filter (fun f => isinst f.value f.ty)⟩

/-- `ApproachFilter.get`: `operator.attrgetter(attr)(approach)`, followed by
`.date()` when the attribute is `time`.  Traversing `neo.diameter` or
`neo.hazardous` when `approach.neo` is `None` raises `AttributeError`,
modelled as `Except.error ()`. -/
def ApproachFilter.get (a : CloseApproach) : Attr → Except Unit PyVal
  | Attr.time => Except.ok (PyVal.pydate a.time.date)
  | Attr.distance => Except.ok (PyVal.pyfloat a.distance)
  | Attr.velocity => Except.ok (PyVal.pyfloat a.velocity)
  | Attr.neoDiameter =>
    match a.neo with
    | Option.none => Except.error ()
    | some n => Except.ok (PyVal.pyfloat n.diameter)
  | Attr.neoHazardous =>
    match a.neo with
    | Option.none => Except.error ()
    | some n => Except.ok (PyVal.pybool n.hazardous)

/-- One element of the comprehension in `ApproachFilter.__call__`:
`f[2](self.get(approach, f[1]), f[0])`. -/
def evalTuple (a : CloseApproach) (f : FilterTuple) : Except Unit Bool :=
  match ApproachFilter.get a f.attr with
  | Except.error e => Except.error e
  | Except.ok v => applyOp f.op v f.value

/-- The full list comprehension of `ApproachFilter.__call__`: elements are
evaluated left to right and the first exception propagates. -/
def evalAll (a : CloseApproach) : List FilterTuple → Except Unit (List Bool)
  | [] => Except.ok []
  | f :: fs =>
    match evalTuple a f with
    | Except.error e => Except.error e
    | Except.ok b =>
      match evalAll a fs with
      | Except.error e => Except.error e
      | Except.ok bs => Except.ok (b :: bs)

/-- `ApproachFilter.__call__`: `all([...])` over the comprehension. -/
def ApproachFilter.call (φ : ApproachFilter) (a : CloseApproach) :
    Except Unit Bool :=
  match evalAll a φ.filters with
  | Except.error e => Except.error e
  | Except.ok bs => Except.ok (bs.all id)

/-- The ten keyword arguments of `create_filters`, each `None` when the
corresponding command-line option was not given. -/
structure FilterArgs where
  date : PyVal
  start_date : PyVal
  end_date : PyVal
  distance_min : PyVal
  distance_max : PyVal
  velocity_min : PyVal
  velocity_max : PyVal
  diameter_min : PyVal
  diameter_max : PyVal
  hazardous : PyVal
deriving DecidableEq

/-- All ten criteria absent: every argument left at its `None` default. -/
def defaultFilterArgs : FilterArgs :=
  ⟨PyVal.none, PyVal.none, PyVal.none, PyVal.none, PyVal.none,
   PyVal.none, PyVal.none, PyVal.none, PyVal.none, PyVal.none⟩

/-- `create_filters` (`filters.py`): the literal ten-row tuple table, handed
to `ApproachFilter`. -/
def create_filters (a : FilterArgs) : ApproachFilter :=
  ApproachFilter.init
    [⟨a.date, Attr.time, Op.eq, PyType.date⟩,
     ⟨a.start_date, Attr.time, Op.ge, PyType.date⟩,
     ⟨a.end_date, Attr.time, Op.le, PyType.date⟩,
     ⟨a.distance_min, Attr.distance, Op.ge, PyType.floatOrInt⟩,
     ⟨a.distance_max, Attr.distance, Op.le, PyType.floatOrInt⟩,
     ⟨a.velocity_min, Attr.velocity, Op.ge, PyType.floatOrInt⟩,
     ⟨a.velocity_max, Attr.velocity, Op.le, PyType.floatOrInt⟩,
     ⟨a.diameter_min, Attr.neoDiameter, Op.ge, PyType.floatOrInt⟩,
     ⟨a.diameter_max, Attr.neoDiameter, Op.le, PyType.floatOrInt⟩,
     ⟨a.hazardous, Attr.neoHazardous, Op.is_, PyType.bool⟩]

/-- `limit` (`filters.py`): `n = n if n else None` (Python truthiness sends
both `None` and `0` to `None`), then `islice(iterator, n)`, whose yielded
sequence is the whole input for `None` and the first `n` elements
otherwise. -/
def limit {α : Type} (xs : List α) (n : Option Nat) : List α :=
  let n2 : Option Nat :=
    match n with
    | some m => if m ≠ 0 then some m else Option.none
    | Option.none => Option.none
  match n2 with
  | Option.none => xs
  | some m => xs.take m

/-- `v.replace('.', '')`: removes every dot. -/
def pyReplaceDots (s : List Char) : List Char := s.filter (fun c => c ≠ '.')

/-- Python `str.isnumeric` on the ASCII strings this data set contains:
nonempty and all decimal digits. -/
def pyIsNumeric (s : List Char) : Bool := !s.isEmpty && s.all Char.isDigit

/-- The natural number denoted by a digit string. -/
def digitsVal (s : List Char) : Nat :=
  s.foldl (fun acc c => 10 * acc + (c.toNat - 48)) 0

/-- Python `float(v)` on the strings that can reach it inside `parse_float`:
the guard there guarantees `v` consists of digits and dots with at least one
digit, and on that fragment `float` succeeds exactly when there is at most
one dot, raising `ValueError` otherwise.  (Forms with signs, exponents or
letters never pass the guard, so their treatment here is irrelevant to
`parse_float`.) -/
def pyFloat (s : List Char) : Except Unit NFloat :=
  if s.all (fun c => c.isDigit || c == '.') ∧ s.count '.' ≤ 1 ∧
      s.any Char.isDigit then
    let ip := s.takeWhile (fun c => c ≠ '.')
    let fp := (s.dropWhile (fun c => c ≠ '.')).drop 1
    Except.ok (some ((digitsVal ip : ℚ) + (digitsVal fp : ℚ) / (10 : ℚ) ^ fp.length))
  else Except.error ()

/-- `parse_float` (`extract.py`):
`float(v) if v.replace('.', '').isnumeric() else float('nan')`. -/
def parse_float (v : String) : Except Unit NFloat :=
  if pyIsNumeric (pyReplaceDots v.toList) then pyFloat v.toList
  else Except.ok Option.none

/-- Lookup by member name in the two-member `HAZARDOUS` enum (`extract.py`):
`HAZARDOUS['Y'].value` is `True`, `HAZARDOUS['N'].value` is `False`, and any
other key raises `KeyError` (modelled by `Option.none` here). -/
def hazardousMember (v : String) : Option Bool :=
  if v = "Y" then some true
  else if v = "N" then some false
  else Option.none

/-- `parse_hazardous` (`extract.py`): `HAZARDOUS[v].value if v else False`;
a falsy (empty) string short-circuits to `False`, any other string goes
through the enum lookup, which raises `KeyError` on unknown tokens. -/
def parse_hazardous (v : String) : Except Unit Bool :=
  if v = "" then Except.ok false
  else
    match hazardousMember v with
    | some b => Except.ok b
    | Option.none => Except.error ()

/-- One row of the NEO CSV as `load_neos` consumes it (the four columns its
`neo_map` selects). -/
structure NeoRow where
  pdes : String
  name : String
  pha : String
  diameter : String
deriving DecidableEq

/-- The per-row body of `load_neos` (`extract.py`): apply each mapped
parser (`str` for `pdes` and `name`, `parse_hazardous` for `pha`,
`parse_float` for `diameter`) in row order and construct the
`NearEarthObject` from the results; a parser exception propagates. -/
def neoFromRow (r : NeoRow) : Except Unit NearEarthObject :=
  match parse_hazardous r.pha with
  | Except.error e => Except.error e
  | Except.ok haz =>
    match parse_float r.diameter with
    | Except.error e => Except.error e
    | Except.ok diam =>
      Except.ok (NearEarthObject.init r.pdes (some r.name) haz diam Option.none)

/-- A close approach that never got linked to an entity (`neo` is `None`),
with well-defined numeric attributes. -/
def sampleApproach : CloseApproach :=
  { designation := "2020 AB"
    time := ⟨0, 0⟩
    distance := some 0
    velocity := some 0
    neo := Option.none }

/-- A close approach whose numeric attributes are the NaN sentinel. -/
def nanApproach : CloseApproach :=
  { designation := "2020 CD"
    time := ⟨0, 0⟩
    distance := Option.none
    velocity := Option.none
    neo := Option.none }

/-! ## Helper lemmas -/

/-- `None` is an instance of none of the three type specifications, so a
`None`-valued tuple never survives `ApproachFilter.__init__`. -/
theorem isinst_none (ty : PyType) : isinst PyVal.none ty = false := by
  cases ty <;> rfl

/-- If any tuple of the list fails, the whole comprehension of
`ApproachFilter.__call__` fails. -/
theorem evalAll_error_of_mem (a : CloseApproach) {l : List FilterTuple}
    {f : FilterTuple} (hm : f ∈ l) (he : evalTuple a f = Except.error ()) :
    evalAll a l = Except.error () := by
  induction l with
  | nil => cases hm
  | cons g gs ih =>
    rcases List.mem_cons.mp hm with h | h
    · subst h
      simp [evalAll, he]
    · cases hg : evalTuple a g with
      | error e => cases e; simp [evalAll, hg]
      | ok b => simp [evalAll, hg, ih h]

/-- A failing tuple makes the composed predicate fail. -/
theorem call_error_of_mem (φ : ApproachFilter) (a : CloseApproach)
    {f : FilterTuple} (hm : f ∈ φ.filters)
    (he : evalTuple a f = Except.error ()) :
    φ.call a = Except.error () := by
  have h := evalAll_error_of_mem a hm he
  simp [ApproachFilter.call, h]

/-- The composed predicate succeeds with `True` exactly when every surviving
tuple individually evaluates to `True`. -/
theorem call_ok_true_iff (φ : ApproachFilter) (a : CloseApproach) :
    φ.call a = Except.ok true ↔ ∀ f ∈ φ.filters, evalTuple a f = Except.ok true := by
  obtain ⟨fs⟩ := φ
  show (ApproachFilter.call ⟨fs⟩ a = Except.ok true) ↔ _
  induction fs with
  | nil => simp [ApproachFilter.call, evalAll]
  | cons f fs ih =>
    cases hf : evalTuple a f with
    | error e =>
      cases e
      simp [ApproachFilter.call, evalAll, hf]
    | ok b =>
      cases hall : evalAll a fs with
      | error e =>
        cases e
        rw [ApproachFilter.call] at ih
        rw [hall] at ih
        simp only [List.all_eq_true] at ih ⊢
        simp [ApproachFilter.call, evalAll, hf, hall, ← ih]
      | ok bs =>
        rw [ApproachFilter.call] at ih
        rw [hall] at ih
        simp only [List.all_eq_true] at ih ⊢
        cases b <;>
          simp_all [ApproachFilter.call, evalAll, hf, hall]

/-! ## Claims -/

/-- C2: a criterion whose reference value is absent (`None`) is vacuously
true — it never survives `ApproachFilter.__init__`'s `isinstance` guard, so
for every close approach the composed query behaves exactly as if the
criterion had not been supplied at all, regardless of the approach's
attribute values (NaN included). -/
theorem c2_none_criterion_inert (l r : List FilterTuple) (f : FilterTuple)
    (a : CloseApproach) (hf : f.value = PyVal.none) :
    (ApproachFilter.init (l ++ f :: r)).call a
      = (ApproachFilter.init (l ++ r)).call a := by
  have hfil : (ApproachFilter.init (l ++ f :: r)).filters
      = (ApproachFilter.init (l ++ r)).filters := by
    simp [ApproachFilter.init, List.filter_append, List.filter_cons, hf,
      isinst_none]
  rw [ApproachFilter.call, ApproachFilter.call, hfil]

/-- Witness for C2: dropping a `None`-valued distance criterion leaves the
query's verdict unchanged on a concrete approach. -/
theorem c2_witness :
    (ApproachFilter.init
        ([] ++ FilterTuple.mk PyVal.none Attr.distance Op.ge PyType.floatOrInt :: [])).call
        sampleApproach
      = (ApproachFilter.init ([] ++ [])).call sampleApproach :=
  c2_none_criterion_inert [] []
    ⟨PyVal.none, Attr.distance, Op.ge, PyType.floatOrInt⟩ sampleApproach rfl

/-- C3: an approach matches the composed query exactly when it satisfies
every one of the active predicates individually (logical AND), and the
query built from an empty criterion set (all ten arguments `None`) matches
every approach. -/
theorem c3_conjunction (φ : ApproachFilter) (a : CloseApproach) :
    (φ.call a = Except.ok true ↔
      ∀ f ∈ φ.filters, evalTuple a f = Except.ok true)
    ∧ (create_filters defaultFilterArgs).call a = Except.ok true := by
  refine ⟨call_ok_true_iff φ a, ?_⟩
  rfl

/-- C4: for `n ≥ 1`, `limit` yields exactly the first `min n total` elements
of the input, in order; for `n = 0` and for an absent `n` it yields the full
input. -/
theorem c4_limit {α : Type} (xs : List α) (n : Nat) :
    (1 ≤ n →
      limit xs (some n) = xs.take n
        ∧ (limit xs (some n)).length = min n xs.length)
    ∧ limit xs (some 0) = xs ∧ limit xs Option.none = xs := by
  refine ⟨fun h => ?_, rfl, rfl⟩
  have hn : n ≠ 0 := by omega
  constructor
  · simp [limit, hn]
  · simp [limit, hn, List.length_take]

/-- Witness for C4: `limit` with `n = 2` on a three-element list. -/
theorem c4_witness :
    limit [1, 2, 3] (some 2) = [1, 2]
      ∧ limit ([1, 2, 3] : List Nat) (some 0) = [1, 2, 3] :=
  ⟨((c4_limit [1, 2, 3] 2).1 (by decide)).1, (c4_limit [1, 2, 3] 2).2.1⟩

/-- C10: `parse_hazardous` maps the empty (falsy) string to `False`, the
token `Y` to `True`, the token `N` to `False`, and raises `KeyError` on
every other non-empty token. -/
theorem c10_parse_hazardous :
    parse_hazardous "" = Except.ok false
    ∧ parse_hazardous "Y" = Except.ok true
    ∧ parse_hazardous "N" = Except.ok false
    ∧ ∀ v : String, v ≠ "" → v ≠ "Y" → v ≠ "N" →
        parse_hazardous v = Except.error () := by
  refine ⟨rfl, rfl, rfl, fun v h0 hY hN => ?_⟩
  simp [parse_hazardous, hazardousMember, h0, hY, hN]

/-- Witness for C10: the unknown token `X` raises. -/
theorem c10_witness : parse_hazardous "X" = Except.error () :=
  c10_parse_hazardous.2.2.2 "X" (by decide) (by decide) (by decide)

/-- `>=` with a NaN left operand is `False` whatever the right operand. -/
theorem nfGe_none (x : NFloat) : nfGe Option.none x = false := by
  cases x <;> rfl

/-- `<=` with a NaN left operand is `False` whatever the right operand. -/
theorem nfLe_none (x : NFloat) : nfLe Option.none x = false := by
  cases x <;> rfl

/-- C5: an approach whose relevant numeric attribute is the NaN sentinel
never satisfies an active min/max criterion on that attribute — the ordering
predicate evaluates to `False` for every numeric reference value, for the
event's distance, its velocity, and its linked NEO's diameter alike. -/
theorem c5_nan_never_satisfies (a : CloseApproach) (ref : PyVal) (op : Op)
    (hop : op = Op.ge ∨ op = Op.le)
    (hnum : (PyVal.asNum ref).isSome = true) :
    (a.distance = Option.none →
      evalTuple a ⟨ref, Attr.distance, op, PyType.floatOrInt⟩ = Except.ok false)
    ∧ (a.velocity = Option.none →
      evalTuple a ⟨ref, Attr.velocity, op, PyType.floatOrInt⟩ = Except.ok false)
    ∧ (∀ n, a.neo = some n → n.diameter = Option.none →
      evalTuple a ⟨ref, Attr.neoDiameter, op, PyType.floatOrInt⟩ = Except.ok false) := by
  have key : applyOp op (PyVal.pyfloat Option.none) ref = Except.ok false := by
    rcases hop with h | h <;> subst h <;> cases ref <;>
      simp_all [applyOp, PyVal.asNum, nfGe_none, nfLe_none]
  refine ⟨fun h => ?_, fun h => ?_, fun n hn hd => ?_⟩
  · simp [evalTuple, ApproachFilter.get, h, key]
  · simp [evalTuple, ApproachFilter.get, h, key]
  · simp [evalTuple, ApproachFilter.get, hn, hd, key]

/-- Witness for C5: a NaN distance fails a `min distance` criterion whose
reference value is `0`. -/
theorem c5_witness :
    nanApproach.distance = Option.none
    ∧ evalTuple nanApproach
        ⟨PyVal.pyfloat (some 0), Attr.distance, Op.ge, PyType.floatOrInt⟩
      = Except.ok false :=
  ⟨rfl,
    (c5_nan_never_satisfies nanApproach (PyVal.pyfloat (some 0)) Op.ge
      (Or.inl rfl) rfl).1 rfl⟩

/-- C9: a criterion whose supplied value is not an instance of its declared
type (`datetime.date` for the three date criteria, `(float, int)` for the
distance/velocity/diameter bounds, `bool` for `hazardous`) is silently
dropped by `ApproachFilter.__init__` at construction time: the surviving
filter list is the one obtained by not supplying the criterion at all, so
the mismatched value is never compared. -/
theorem c9_type_mismatch_dropped (args : FilterArgs) (v : PyVal) :
    (isinst v PyType.date = false →
      (create_filters { args with date := v }).filters
        = (create_filters { args with date := PyVal.none }).filters)
    ∧ (isinst v PyType.date = false →
      (create_filters { args with start_date := v }).filters
        = (create_filters { args with start_date := PyVal.none }).filters)
    ∧ (isinst v PyType.date = false →
      (create_filters { args with end_date := v }).filters
        = (create_filters { args with end_date := PyVal.none }).filters)
    ∧ (isinst v PyType.floatOrInt = false →
      (create_filters { args with distance_min := v }).filters
        = (create_filters { args with distance_min := PyVal.none }).filters)
    ∧ (isinst v PyType.floatOrInt = false →
      (create_filters { args with distance_max := v }).filters
        = (create_filters { args with distance_max := PyVal.none }).filters)
    ∧ (isinst v PyType.floatOrInt = false →
      (create_filters { args with velocity_min := v }).filters
        = (create_filters { args with velocity_min := PyVal.none }).filters)
    ∧ (isinst v PyType.floatOrInt = false →
      (create_filters { args with velocity_max := v }).filters
        = (create_filters { args with velocity_max := PyVal.none }).filters)
    ∧ (isinst v PyType.floatOrInt = false →
      (create_filters { args with diameter_min := v }).filters
        = (create_filters { args with diameter_min := PyVal.none }).filters)
    ∧ (isinst v PyType.floatOrInt = false →
      (create_filters { args with diameter_max := v }).filters
        = (create_filters { args with diameter_max := PyVal.none }).filters)
    ∧ (isinst v PyType.bool = false →
      (create_filters { args with hazardous := v }).filters
        = (create_filters { args with hazardous := PyVal.none }).filters) := by
  refine ⟨fun h => ?_, fun h => ?_, fun h => ?_, fun h => ?_, fun h => ?_,
    fun h => ?_, fun h => ?_, fun h => ?_, fun h => ?_, fun h => ?_⟩ <;>
    simp [create_filters, ApproachFilter.init, List.filter_cons, h, isinst_none]

/-- Witness for C9: a float supplied as the `date` criterion is dropped. -/
theorem c9_witness :
    isinst (PyVal.pyfloat (some 1)) PyType.date = false
    ∧ (create_filters { defaultFilterArgs with date := PyVal.pyfloat (some 1) }).filters
        = (create_filters { defaultFilterArgs with date := PyVal.none }).filters :=
  ⟨rfl,
    (c9_type_mismatch_dropped defaultFilterArgs (PyVal.pyfloat (some 1))).1 rfl⟩

/-- C1 (counterexample): the claim that an entity-attribute criterion
evaluates to a boolean on an approach whose `neo` is `None` is false:
`operator.attrgetter('neo.diameter')` raises `AttributeError` on the `None`
back-reference, so the composed predicate call raises instead of returning
a boolean. -/
theorem c1_counterexample :
    (create_filters
        { defaultFilterArgs with diameter_min := PyVal.pyfloat (some 1) }).call
        sampleApproach = Except.error () := by
  rfl

/-- C1 (amended): for every approach whose `neo` back-reference is `None`,
evaluating a query whose active criteria include an entity-attribute
criterion (min size, max size, or flagged, with a type-correct reference
value) raises `AttributeError` — the composed predicate call fails rather
than returning a boolean. -/
theorem c1_amended (args : FilterArgs) (a : CloseApproach)
    (hneo : a.neo = Option.none)
    (hact : isinst args.diameter_min PyType.floatOrInt = true
          ∨ isinst args.diameter_max PyType.floatOrInt = true
          ∨ isinst args.hazardous PyType.bool = true) :
    (create_filters args).call a = Except.error () := by
  have herrD : ∀ g : FilterTuple, g.attr = Attr.neoDiameter →
      evalTuple a g = Except.error () := by
    intro g hg
    simp [evalTuple, ApproachFilter.get, hg, hneo]
  have herrH : ∀ g : FilterTuple, g.attr = Attr.neoHazardous →
      evalTuple a g = Except.error () := by
    intro g hg
    simp [evalTuple, ApproachFilter.get, hg, hneo]
  rcases hact with h | h | h
  · refine call_error_of_mem _ a ?_
      (herrD ⟨args.diameter_min, Attr.neoDiameter, Op.ge, PyType.floatOrInt⟩ rfl)
    simp [create_filters, ApproachFilter.init, List.mem_filter, h]
  · refine call_error_of_mem _ a ?_
      (herrD ⟨args.diameter_max, Attr.neoDiameter, Op.le, PyType.floatOrInt⟩ rfl)
    simp [create_filters, ApproachFilter.init, List.mem_filter, h]
  · refine call_error_of_mem _ a ?_
      (herrH ⟨args.hazardous, Attr.neoHazardous, Op.is_, PyType.bool⟩ rfl)
    simp [create_filters, ApproachFilter.init, List.mem_filter, h]

/-- Witness for C1's amended statement: the flagged criterion on an unlinked
approach. -/
theorem c1_witness :
    sampleApproach.neo = Option.none
    ∧ (create_filters { defaultFilterArgs with hazardous := PyVal.pybool true }).call
        sampleApproach = Except.error () :=
  ⟨rfl, c1_amended _ sampleApproach rfl (Or.inr (Or.inr rfl))⟩

/-- C6 (code bug): `parse_float` is not total on malformed input.  The
string `1.2.3` passes the guard (`'1.2.3'.replace('.', '')` is `'123'`,
which is numeric) and is then handed to `float`, which raises `ValueError`
instead of producing the NaN sentinel. -/
theorem c6_parse_float_raises : parse_float "1.2.3" = Except.error () := by
  rfl

/-- C7 (code bug): a NEO built by `load_neos` from a row with an empty name
field keeps the empty string as its `name` attribute — neither `load_neos`
nor `NearEarthObject.__init__` normalizes it to `None`. -/
theorem c7_empty_name_kept :
    (neoFromRow ⟨"2020 AB", "", "", ""⟩).map NearEarthObject.name
      = Except.ok (some "") := by
  rfl

/-- C8 (code bug): two NEOs constructed without an explicit `approaches`
argument share the single module-level default list, so appending an
approach through the first NEO is visible through the second — its
"own" list is no longer empty. -/
theorem c8_shared_default_list :
    (NearEarthObject.init "a" Option.none false Option.none Option.none).approaches
      = (NearEarthObject.init "b" Option.none false Option.none Option.none).approaches
    ∧ heapGet
        (heapAppend initHeap
          ((NearEarthObject.init "a" Option.none false Option.none Option.none).approaches) 7)
        ((NearEarthObject.init "b" Option.none false Option.none Option.none).approaches)
      = [7] :=
  ⟨rfl, rfl⟩
